import Mathlib

/-!
Verification of the puter-sdk client library against its specification.

The development shallowly embeds the resource adapters of the SDK:
the key-value store (PuterKV), the auth session (PuterAuth and the
client request interceptor), the application provisioning workflow
(PuterApps.create and its four steps), and the AI chat request
normalizer (PuterAI.chat).  Stateful HTTP traffic is modelled by an
explicit environment providing the backend response bodies, and each
operation returns the list of network requests it issued together
with either its result or the thrown error.
-/

/-- A JavaScript value, as far as the SDK manipulates them: strings,
booleans, integers, arrays and plain objects (association lists of
fields, unique keys, insertion ordered).  `null` and `undefined` do
not occur as field values in the payloads the claims are about;
absence of a field is modelled by the lookup returning `none`. -/
inductive Json where
  | str (s : String)
  | bool (b : Bool)
  | num (n : Int)
  | arr (xs : List Json)
  | obj (fields : List (String × Json))

/-- Field lookup on an object field list, first match. -/
def jsGet (fields : List (String × Json)) (k : String) : Option Json :=
  (fields.find? (fun p => p.1 = k)).map (fun p => p.2)

/-- JavaScript property assignment `o[k] = v`: an existing key keeps
its position and takes the new value, a new key is appended (object
keys are unique, so replacing the first occurrence is assignment). -/
def jsSet (fields : List (String × Json)) (k : String) (v : Json) :
    List (String × Json) :=
  match fields with
  | [] => [(k, v)]
  | p :: rest => if p.1 = k then (k, v) :: rest else p :: jsSet rest k v

/-- JavaScript object spread merge, as in the expression with braces
spreading `a` then `b`: every key of `b` is assigned into `a` in
order. -/
def jsMergeObj (a b : List (String × Json)) : List (String × Json) :=
  b.foldl (fun acc p => jsSet acc p.1 p.2) a

/-- JavaScript `s1 || s2` on a string and a fallback string: the empty
string is falsy. -/
def jsOrStr (s d : String) : String := if s = "" then d else s

/-- JavaScript `x?.f || d` where the optional chain yields an optional
string. -/
def jsOptOrStr (s : Option String) (d : String) : String :=
  match s with
  | some v => jsOrStr v d
  | none => d

/-- Rendering an optional string into a template literal: JavaScript
prints the value `undefined` as the text "undefined". -/
def jsTemplateStr (s : Option String) : String :=
  match s with
  | some v => v
  | none => "undefined"

/-- The JavaScript expression `s.split(sep)[0]` for the single-dash
separator: the prefix of the string up to (excluding) the first dash,
the whole string when no dash occurs, and the empty string for the
empty string. -/
def firstSegment (s : String) : String :=
  String.mk (s.data.takeWhile (fun c => ¬c = '-'))

/-- Errors thrown by the SDK: a generic `Error` carrying a message, a
`PuterError` carrying the structured error body returned by the
backend, or a raw runtime `TypeError` escaping a broken call (the
JavaScript message quotes the property name; the quotes are elided
here). -/
inductive JsError where
  | err (message : String)
  | puterErr (code : Option String) (message : Option String)
  | typeError (message : String)
  deriving DecidableEq, Repr

/-- Structured error body `{code, message}` of a backend envelope. -/
structure ErrorBody where
  code : Option String
  message : Option String
  deriving DecidableEq, Repr

/-! ## Key-value store (PuterKV) -/

/-- A request issued by a PuterKV method to the drivers-call endpoint,
identified by its KV method and arguments. -/
inductive KvRequest where
  | set (key : String) (value : Json)
  | get (key : String)
  | del (key : String)
  | incr (key : String) (amount : Int)
  | decr (key : String) (amount : Int)

/-- A backend envelope for a KV call: `{success, error?, result?}`. -/
structure KvResp where
  success : Bool
  error : Option ErrorBody
  result : Option Json

/-- The JavaScript guard of every PuterKV method (falsy key, or key
whose typeof is not string): true exactly when the key is not a
string or is the empty (falsy) string. -/
def kvKeyInvalid (key : Json) : Bool :=
  match key with
  | .str s => s = ""
  | _ => true

namespace PuterKV

/-- PuterKV.set: validates the key locally, then posts the set call
and unwraps the envelope. -/
def set (resp : KvResp) (key : Json) (value : Json) :
    List KvRequest × Except JsError Json :=
  if kvKeyInvalid key then ([], .error (.err "Invalid key"))
  else
    match key with
    | .str s =>
      if s.length > 1024 then ([], .error (.err "Key too large"))
      else
        ([.set s value],
          if resp.success then .ok (.bool true)
          else .error (.err (jsOptOrStr (resp.error.bind (fun e => e.message))
            "Failed to set value")))
    | _ => ([], .error (.err "Invalid key"))

/-- PuterKV.get: validates the key locally, then posts the get call
and returns the result field of the envelope. -/
def get (resp : KvResp) (key : Json) :
    List KvRequest × Except JsError (Option Json) :=
  if kvKeyInvalid key then ([], .error (.err "Invalid key"))
  else
    match key with
    | .str s =>
      ([.get s],
        if resp.success then .ok resp.result
        else .error (.err (jsOptOrStr (resp.error.bind (fun e => e.message))
          "Failed to get value")))
    | _ => ([], .error (.err "Invalid key"))

/-- PuterKV.del: validates the key locally, then posts the del call. -/
def del (resp : KvResp) (key : Json) :
    List KvRequest × Except JsError Json :=
  if kvKeyInvalid key then ([], .error (.err "Invalid key"))
  else
    match key with
    | .str s =>
      ([.del s],
        if resp.success then .ok (.bool true)
        else .error (.err (jsOptOrStr (resp.error.bind (fun e => e.message))
          "Failed to delete key")))
    | _ => ([], .error (.err "Invalid key"))

/-- PuterKV.incr: validates the key locally, then posts the incr call
with the given amount (the source defaults it to 1). -/
def incr (resp : KvResp) (key : Json) (amount : Int) :
    List KvRequest × Except JsError (Option Json) :=
  if kvKeyInvalid key then ([], .error (.err "Invalid key"))
  else
    match key with
    | .str s =>
      ([.incr s amount],
        if resp.success then .ok resp.result
        else .error (.err (jsOptOrStr (resp.error.bind (fun e => e.message))
          "Failed to increment value")))
    | _ => ([], .error (.err "Invalid key"))

/-- PuterKV.decr: validates the key locally, then posts the decr call
with the given amount (the source defaults it to 1). -/
def decr (resp : KvResp) (key : Json) (amount : Int) :
    List KvRequest × Except JsError (Option Json) :=
  if kvKeyInvalid key then ([], .error (.err "Invalid key"))
  else
    match key with
    | .str s =>
      ([.decr s amount],
        if resp.success then .ok resp.result
        else .error (.err (jsOptOrStr (resp.error.bind (fun e => e.message))
          "Failed to decrement value")))
    | _ => ([], .error (.err "Invalid key"))

end PuterKV

/-! ## Auth session (PuterAuth, PuterClient request interceptor) -/

/-- The mutable client session state: the token held on the client
instance, and the Authorization entry of the default headers of the
HTTP client (`this.http.defaults.headers`). -/
structure Session where
  token : Option String
  defaultAuthHeader : Option String

namespace PuterAuth

/-- PuterAuth.signOut: sets the client token to null and deletes the
Authorization default header. -/
def signOut (s : Session) : Session :=
  { s with token := none, defaultAuthHeader := none }

/-- Modelled from the spec: `PuterAuth.isSignedIn` is referenced by the
spec (sections 6 and 8) and by the test suite but its implementation is
not among the source files; per the spec it reports whether a session
token is currently held (true after sign-in or when constructed with an
API key, false before sign-in and after sign-out). -/
def isSignedIn (s : Session) : Bool :=
  s.token.isSome

end PuterAuth

/-- The Authorization header carried by the next outgoing request: the
request headers start from the defaults, then the request interceptor
adds a bearer header when the client token is truthy and no
Authorization header is present yet. -/
def requestAuthHeader (s : Session) : Option String :=
  match s.defaultAuthHeader with
  | some h => some h
  | none =>
    match s.token with
    | some t => if t = "" then none else some ("Bearer " ++ t)
    | none => none

/-! ## Application provisioning workflow (PuterApps.create) -/

/-- A network request issued by the app provisioning workflow or by the
delete paths of the apps and hosting adapters (the delete constructors
exist so that their absence from a trace is expressible). -/
inductive AppRequest where
  | recordCreate (name url description : String)
  | mkdir (parent path : String) (overwrite dedupe createMissingParents : Bool)
  | subdomainCreate (subdomain rootDir : String)
  | recordUpdate (name indexUrl title : String)
  | appDelete (name : String)
  | subdomainDelete (id : String)

/-- Whether a request is the step-4 record update. -/
def AppRequest.isUpdate : AppRequest → Bool
  | .recordUpdate _ _ _ => true
  | _ => false

/-- Whether a request deletes an app or a subdomain. -/
def AppRequest.isDelete : AppRequest → Bool
  | .appDelete _ => true
  | .subdomainDelete _ => true
  | _ => false

/-- The app record returned by the create driver call, with the fields
the workflow reads and returns (the owner object is flattened to its
username field; an absent or falsy field is the empty string). -/
structure AppRecord where
  uid : String
  name : String
  ownerUsername : String
  indexUrl : String
  title : String
  description : String

/-- Backend envelope for the step-1 record-create driver call. -/
structure RecordCreateResp where
  error : Option ErrorBody
  success : Bool
  result : Option AppRecord

/-- Response body of the step-2 mkdir endpoint; a missing uid is the
empty (falsy) string. -/
structure MkdirResp where
  uid : String
  path : String

/-- The subdomain record returned by the step-3 subdomain-create
driver call. -/
structure SubdomainRecord where
  uid : String
  subdomain : String
  rootDir : String

/-- Backend envelope for the step-3 subdomain-create driver call. -/
structure SubdomainResp where
  success : Bool
  error : Option ErrorBody
  result : Option SubdomainRecord

/-- Backend envelope for the step-4 record-update driver call. -/
structure UpdateResp where
  success : Bool

/-- The environment of one PuterApps.create run: the random UUID drawn
for the directory leaf name, and the response body the backend delivers
to each of the four steps.  The model covers HTTP-level successes (the
response interceptor has unwrapped `response.data`); transport-level
rejections are outside the environment, so the APP_EXISTS
reclassification branch of the catch handler, which reads
`error.response.data.error.code`, is never taken here. -/
structure CreateEnv where
  uuid : String
  recordResp : RecordCreateResp
  mkdirResp : MkdirResp
  subdomainResp : SubdomainResp
  updateResp : UpdateResp

/-- Options object accepted by PuterApps.create; url and description
are optional and defaulted to the empty string by the source. -/
structure CreateOptions where
  name : String
  url : Option String
  description : Option String

namespace PuterApps

/-- PuterApps.createAppRecord: posts the record-create driver call and
unwraps the envelope. -/
def createAppRecord (env : CreateEnv) (name url description : String) :
    List AppRequest × Except JsError AppRecord :=
  let reqs : List AppRequest := [.recordCreate name url description]
  match env.recordResp.error with
  | some e => (reqs, .error (.puterErr e.code e.message))
  | none =>
    if env.recordResp.success then
      match env.recordResp.result with
      | some app => (reqs, .ok app)
      | none => (reqs, .error (.err "Failed to create app record"))
    else (reqs, .error (.err "Failed to create app record"))

/-- PuterApps.createAppDirectory: guards the shape of the app record,
then posts mkdir with parent `/{owner}/AppData/{uid}` and leaf
`app-{randomUUID}`, with overwrite enabled, name deduplication
disabled and missing parents created. -/
def createAppDirectory (env : CreateEnv) (app : AppRecord) :
    List AppRequest × Except JsError MkdirResp :=
  if app.ownerUsername = "" ∨ app.uid = "" then
    ([], .error (.err "Invalid app record"))
  else
    let parent := "/" ++ app.ownerUsername ++ "/AppData/" ++ app.uid
    let reqs : List AppRequest :=
      [.mkdir parent ("app-" ++ env.uuid) true false true]
    if env.mkdirResp.uid = "" then
      (reqs, .error (.err "Failed to create app directory"))
    else (reqs, .ok env.mkdirResp)

end PuterApps

namespace PuterHosting

/-- PuterHosting.create: validates its two options, posts the
subdomain-create driver call and returns the result field of the
envelope; a non-success envelope throws the backend error message when
present (falling back to the fixed failure message), and the catch
handler rethrows it with the same message. -/
def create (env : CreateEnv) (subdomain rootDir : String) :
    List AppRequest × Except JsError (Option SubdomainRecord) :=
  if subdomain = "" ∨ rootDir = "" then
    ([], .error (.err "Subdomain and root directory are required"))
  else
    let reqs : List AppRequest := [.subdomainCreate subdomain rootDir]
    if env.subdomainResp.success then (reqs, .ok env.subdomainResp.result)
    else
      (reqs, .error (.err (jsOptOrStr
        (env.subdomainResp.error.bind (fun e => e.message))
        "Failed to create subdomain")))

end PuterHosting

namespace PuterApps

/-- PuterApps.createAppSubdomain: derives the subdomain name by
joining the app name and the first dash-separated segment of the
directory uid, and delegates to the hosting adapter rooted at the
directory path. -/
def createAppSubdomain (env : CreateEnv) (app : AppRecord)
    (dirResponse : MkdirResp) :
    List AppRequest × Except JsError (Option SubdomainRecord) :=
  let subdomainName := app.name ++ "-" ++ firstSegment dirResponse.uid
  PuterHosting.create env subdomainName dirResponse.path

/-- PuterApps.updateAppWithSubdomain: posts the record-update driver
call rewriting the index url to the subdomain site and the title to
the app name; the subdomain name is the optional chain
`subdomainResponse?.subdomain`, rendered as the text "undefined" when
absent. -/
def updateAppWithSubdomain (env : CreateEnv) (app : AppRecord)
    (subdomainName : Option String) :
    List AppRequest × Except JsError UpdateResp :=
  let url := "https://" ++ jsTemplateStr subdomainName ++ ".puter.site"
  let reqs : List AppRequest := [.recordUpdate app.name url app.name]
  if env.updateResp.success then (reqs, .ok env.updateResp)
  else (reqs, .error (.err "Failed to update app with subdomain URL"))

/-- The aggregate result of a successful PuterApps.create: the app
record spread together with the directory response and the subdomain
result. -/
structure CreateResult where
  app : AppRecord
  directory : MkdirResp
  subdomain : Option SubdomainRecord

/-- The catch handler of PuterApps.create applied to an error thrown
by one of the four steps: such errors carry no transport response
body, so the APP_EXISTS branch does not fire; a PuterError is
rethrown as-is and any other error is rewrapped preserving its
(nonempty) message. -/
def createCatch (e : JsError) : JsError :=
  match e with
  | .puterErr c m => .puterErr c m
  | .err m => .err (jsOrStr m "Failed to create app")
  | .typeError m => .err (jsOrStr m "Failed to create app")

/-- PuterApps.create: validates the name, then runs the four steps in
sequence, accumulating the issued requests; any step error is mapped
through the catch handler. -/
def create (env : CreateEnv) (options : CreateOptions) :
    List AppRequest × Except JsError CreateResult :=
  let name := options.name
  let url := options.url.getD ""
  let description := options.description.getD ""
  if name = "" then ([], .error (.err "App name is required"))
  else
    match createAppRecord env name url description with
    | (r1, .error e) => (r1, .error (createCatch e))
    | (r1, .ok app) =>
      match createAppDirectory env app with
      | (r2, .error e) => (r1 ++ r2, .error (createCatch e))
      | (r2, .ok dirResponse) =>
        match createAppSubdomain env app dirResponse with
        | (r3, .error e) => (r1 ++ r2 ++ r3, .error (createCatch e))
        | (r3, .ok subdomainResponse) =>
          match updateAppWithSubdomain env app
              (subdomainResponse.map (fun r => r.subdomain)) with
          | (r4, .error e) => (r1 ++ r2 ++ r3 ++ r4, .error (createCatch e))
          | (r4, .ok _) =>
            (r1 ++ r2 ++ r3 ++ r4,
              .ok ⟨app, dirResponse, subdomainResponse⟩)

end PuterApps

/-! ## AI chat request normalizer (PuterAI.chat) -/

/-- A network request issued by PuterAI.chat: a file upload for an
image reference (via the filesystem collaborator, target directory
root), or the chat-completion drivers call.  The payload keeps the
fields the normalizer computes (test_mode, method, args); the constant
interface and driver fields come from constants.js and are left
implicit in the constructor. -/
structure ChatPayload where
  test_mode : Bool
  method : String
  args : List (String × Json)

/-- A network request issued by the chat entry point; `streaming`
records whether the transport was asked for a byte-stream response.
The upload constructor is the /batch call PuterFileSystem.upload
would post; it is kept so that its absence from a trace is
expressible, since the upload implementation throws before posting
(see processImages). -/
inductive ChatRequest where
  | upload (ref target : String)
  | complete (payload : ChatPayload) (streaming : Bool)

/-- What PuterAI.chat hands back on success: the live stream object in
streaming mode, or the unwrapped result of the envelope otherwise. -/
inductive ChatResult where
  | streamed
  | completed (result : Json)

/-- Environment of one chat call: the non-streaming envelope the
backend delivers (success flag and result).  No upload environment
exists because the filesystem collaborator never reaches the network
on the image path (see processImages). -/
structure ChatEnv where
  success : Bool
  result : Json

/-- The mutable state of the argument-classification loop: the legacy
test-mode flag, the accumulated image references, and the options bag. -/
structure ChatArgsAcc where
  testMode : Bool
  imageUrls : List String
  options : List (String × Json)

/-- One iteration of the classification loop over the optional
positional arguments: a boolean sets test mode, a string or an
all-string array accumulates image references, a non-array object is
shallow-merged into the options bag, anything else is ignored. -/
def classifyArg (acc : ChatArgsAcc) (arg : Json) : ChatArgsAcc :=
  match arg with
  | .bool b => { acc with testMode := b }
  | .str s => { acc with imageUrls := acc.imageUrls ++ [s] }
  | .arr items =>
    if items.all (fun i => match i with | .str _ => true | _ => false) then
      { acc with imageUrls := acc.imageUrls ++
          items.filterMap (fun i => match i with | .str s => some s | _ => none) }
    else acc
  | .obj o => { acc with options := jsMergeObj acc.options o }
  | .num _ => acc

/-- The classification of the up-to-three optional positional
arguments, in order, skipping absent (undefined) ones. -/
def normalizeArgs (arg2 arg3 arg4 : Option Json) : ChatArgsAcc :=
  ([arg2, arg3, arg4].filterMap id).foldl classifyArg ⟨false, [], []⟩

/-- The strict test `options.stream === true` on the options bag. -/
def isStreamOpt (options : List (String × Json)) : Bool :=
  match jsGet options "stream" with
  | some (.bool true) => true
  | _ => false

/-- JavaScript property read `v.k` on an arbitrary value: only plain
objects yield a value, every other value yields undefined for the
properties the normalizer reads. -/
def jsProp (v : Json) (k : String) : Option Json :=
  match v with
  | .obj fields => jsGet fields k
  | _ => none

/-- The image-upload phase of PuterAI.chat.  The source maps each
reference through the call upload(url, "/") on the filesystem
collaborator, positionally; but every upload implementation in this
repository destructures an options object with fields file, path and
name, so the string argument leaves file undefined and the access
file.type raises a TypeError inside the async body, before the /batch
request is posted.  The rejection propagates out of Promise.all, and
the image phase sits outside the try block of chat, so with at least
one image reference chat rejects with the raw TypeError, issues no
network request, builds no content part, and never reaches the later
attachment and validation code. -/
def processImages (messages : List Json) (imageUrls : List String) :
    List ChatRequest × Except JsError (List Json) :=
  if imageUrls.isEmpty then ([], .ok messages)
  else
    ([], .error (.typeError
      "Cannot read properties of undefined (reading type)"))

/-- The per-message validation performed after image handling: the
message must be an object with a string role, and its content must be
a string or an array. -/
def validMsg (m : Json) : Bool :=
  (match jsProp m "role" with
   | some (.str _) => true
   | _ => false) &&
  (match jsProp m "content" with
   | some (.str _) => true
   | some (.arr _) => true
   | _ => false)

/-- The message list derived from the first positional argument: a
string becomes a single user message, an array is taken as the message
sequence, anything else is a signature error. -/
def promptMessages (prompt : Json) : Option (List Json) :=
  match prompt with
  | .str s => some [.obj [("role", .str "user"), ("content", .str s)]]
  | .arr ms => some ms
  | _ => none

/-- The args object of the chat payload: the messages first, then the
stream flag only when streaming was selected, then the remaining
normalized options with the stream key itself removed. -/
def chatArgs (acc : ChatArgsAcc) (messages : List Json) :
    List (String × Json) :=
  jsMergeObj
    (jsMergeObj [("messages", .arr messages)]
      (if isStreamOpt acc.options then [("stream", .bool true)] else []))
    (acc.options.filter (fun p => ¬p.1 = "stream"))

/-- The chat-completion payload: test_mode is forced off when
streaming is selected, otherwise it carries the legacy test-mode
flag; the method is complete in both modes. -/
def chatPayload (acc : ChatArgsAcc) (messages : List Json) : ChatPayload :=
  ⟨if isStreamOpt acc.options then false else acc.testMode, "complete",
   chatArgs acc messages⟩

/-- The tail of PuterAI.chat after image handling: the message
sequence is validated (empty, then per-message format), and the
payload is dispatched on the streaming or buffered transport. -/
def chatAfterImages (env : ChatEnv) (acc : ChatArgsAcc)
    (uploadReqs : List ChatRequest) (messages : List Json) :
    List ChatRequest × Except JsError ChatResult :=
  if messages.isEmpty then
    (uploadReqs, .error (.err "At least one message is required."))
  else if messages.all validMsg then
    if isStreamOpt acc.options then
      (uploadReqs ++ [.complete (chatPayload acc messages) true],
        .ok .streamed)
    else
      (uploadReqs ++ [.complete (chatPayload acc messages) false],
        if env.success then .ok (.completed env.result)
        else .error (.err "Failed to get chat completion"))
  else (uploadReqs, .error (.err "Invalid message format"))

/-- The body of PuterAI.chat once the first argument has been turned
into a message list: the image phase runs first (rejecting with a
TypeError when any image reference is present, see processImages, and
that rejection is outside the try block so it propagates raw), then
validation and dispatch via chatAfterImages. -/
def chatRun (env : ChatEnv) (acc : ChatArgsAcc) (messages0 : List Json) :
    List ChatRequest × Except JsError ChatResult :=
  match processImages messages0 acc.imageUrls with
  | (uploadReqs, .error e) => (uploadReqs, .error e)
  | (uploadReqs, .ok messages) => chatAfterImages env acc uploadReqs messages

namespace PuterAI

/-- PuterAI.chat: normalizes the polymorphic signature and runs the
image phase, validation and dispatch. -/
def chat (env : ChatEnv) (prompt : Json) (arg2 arg3 arg4 : Option Json) :
    List ChatRequest × Except JsError ChatResult :=
  match promptMessages prompt with
  | none =>
    ([], .error (.err "The first argument must be a string or an array of messages."))
  | some messages0 => chatRun env (normalizeArgs arg2 arg3 arg4) messages0

end PuterAI

/-! ## Helper lemmas -/

/-- Unfolding of the lookup on a nonempty field list. -/
theorem jsGet_cons (q : String × Json) (l : List (String × Json))
    (k : String) :
    jsGet (q :: l) k = if q.1 = k then some q.2 else jsGet l k := by
  by_cases hq : q.1 = k <;> simp [jsGet, List.find?, hq]

/-- Looking up the freshly assigned key returns the new value. -/
theorem jsGet_jsSet_self (fields : List (String × Json)) (k : String)
    (v : Json) : jsGet (jsSet fields k v) k = some v := by
  induction fields with
  | nil => simp [jsSet, jsGet_cons]
  | cons p rest ih =>
    by_cases hp : p.1 = k <;> simp [jsSet, hp, jsGet_cons, ih]

/-- Assignment of a different key does not change a lookup. -/
theorem jsGet_jsSet_ne (fields : List (String × Json)) (k1 : String)
    (v : Json) (k : String) (h : ¬k1 = k) :
    jsGet (jsSet fields k1 v) k = jsGet fields k := by
  induction fields with
  | nil => simp [jsSet, jsGet_cons, h]
  | cons p rest ih =>
    by_cases hp : p.1 = k1
    · have hpk : ¬p.1 = k := by rw [hp]; exact h
      have hs : jsSet (p :: rest) k1 v = (k1, v) :: rest := by
        simp [jsSet, hp]
      rw [hs, jsGet_cons, jsGet_cons, if_neg h, if_neg hpk]
    · have hs : jsSet (p :: rest) k1 v = p :: jsSet rest k1 v := by
        simp [jsSet, hp]
      rw [hs, jsGet_cons, jsGet_cons, ih]

/-- Merging an object none of whose keys is `k` does not change the
lookup of `k`. -/
theorem jsGet_mergeObj_of_not_mem (a b : List (String × Json))
    (k : String) (h : ∀ p ∈ b, ¬p.1 = k) :
    jsGet (jsMergeObj a b) k = jsGet a k := by
  induction b generalizing a with
  | nil => rfl
  | cons p rest ih =>
    have hstep : jsMergeObj a (p :: rest) = jsMergeObj (jsSet a p.1 p.2) rest := rfl
    rw [hstep, ih _ (fun q hq => h q (List.mem_cons_of_mem _ hq))]
    exact jsGet_jsSet_ne _ _ _ _ (h p (List.mem_cons_self _ _))

/-- A string of the shape `a ++ "-" ++ b` is never empty. -/
theorem append_dash_ne_empty (a b : String) : ¬(a ++ "-" ++ b) = "" := by
  intro h
  have hl := congrArg String.length h
  have hdash : ("-" : String).length = 1 := rfl
  simp [String.length_append, hdash] at hl

/-! ## Claim theorems: key-value store and auth -/

/-- C8: for every string key, PuterKV.set rejects locally with the
key-too-large validation error and issues no request whenever the key
length exceeds 1024, and at length exactly 1024 it passes validation
and issues the set request. -/
theorem kv_set_key_length_boundary :
    (∀ (resp : KvResp) (s : String) (value : Json), 1024 < s.length →
      PuterKV.set resp (.str s) value =
        ([], .error (.err "Key too large"))) ∧
    (∀ (resp : KvResp) (s : String) (value : Json), s.length = 1024 →
      (PuterKV.set resp (.str s) value).1 = [KvRequest.set s value]) := by
  constructor
  · intro resp s value h
    have hne : ¬s = "" := by
      intro h0
      subst h0
      simp at h
    simp [PuterKV.set, kvKeyInvalid, hne, h]
  · intro resp s value h
    have hne : ¬s = "" := by
      intro h0
      subst h0
      simp at h
    have hlt : ¬s.length > 1024 := by omega
    simp [PuterKV.set, kvKeyInvalid, hne, hlt]

/-- Witness for C8 at a 1025-character key and a 1024-character key. -/
theorem kv_set_key_length_boundary_witness :
    PuterKV.set ⟨true, none, none⟩ (.str (String.mk (List.replicate 1025 'a')))
        (.bool true) = ([], .error (.err "Key too large")) ∧
    (PuterKV.set ⟨true, none, none⟩ (.str (String.mk (List.replicate 1024 'a')))
        (.bool true)).1 =
      [KvRequest.set (String.mk (List.replicate 1024 'a')) (.bool true)] := by
  have h1 : 1024 < (String.mk (List.replicate 1025 'a')).length := by
    show 1024 < (List.replicate 1025 'a').length
    rw [List.length_replicate]
    omega
  have h2 : (String.mk (List.replicate 1024 'a')).length = 1024 := by
    show (List.replicate 1024 'a').length = 1024
    rw [List.length_replicate]
  exact ⟨kv_set_key_length_boundary.1 _ _ _ h1,
    kv_set_key_length_boundary.2 _ _ _ h2⟩

/-- C10: every PuterKV method rejects with the invalid-key error and
issues no request when the key is not a string or is empty. -/
theorem kv_invalid_key_no_request (key : Json)
    (h : kvKeyInvalid key = true) :
    ∀ (resp : KvResp) (value : Json) (amount : Int),
      PuterKV.set resp key value = ([], .error (.err "Invalid key")) ∧
      PuterKV.get resp key = ([], .error (.err "Invalid key")) ∧
      PuterKV.del resp key = ([], .error (.err "Invalid key")) ∧
      PuterKV.incr resp key amount = ([], .error (.err "Invalid key")) ∧
      PuterKV.decr resp key amount = ([], .error (.err "Invalid key")) := by
  intro resp value amount
  refine ⟨?_, ?_, ?_, ?_, ?_⟩ <;>
    simp [PuterKV.set, PuterKV.get, PuterKV.del, PuterKV.incr, PuterKV.decr, h]

/-- Witness for C10 at the empty-string key. -/
theorem kv_invalid_key_no_request_witness :
    PuterKV.set ⟨true, none, none⟩ (.str "") (.bool true) =
        ([], .error (.err "Invalid key")) ∧
    PuterKV.get ⟨true, none, none⟩ (.str "") =
        ([], .error (.err "Invalid key")) ∧
    PuterKV.del ⟨true, none, none⟩ (.str "") =
        ([], .error (.err "Invalid key")) ∧
    PuterKV.incr ⟨true, none, none⟩ (.str "") 1 =
        ([], .error (.err "Invalid key")) ∧
    PuterKV.decr ⟨true, none, none⟩ (.str "") 1 =
        ([], .error (.err "Invalid key")) :=
  kv_invalid_key_no_request (.str "") (by decide) ⟨true, none, none⟩
    (.bool true) 1

/-- C9: after signOut, the session token is null, isSignedIn is
false, and the Authorization bearer header is absent from the next
outgoing request. -/
theorem auth_signOut_clears_session (s : Session) :
    (PuterAuth.signOut s).token = none ∧
    PuterAuth.isSignedIn (PuterAuth.signOut s) = false ∧
    requestAuthHeader (PuterAuth.signOut s) = none :=
  ⟨rfl, rfl, rfl⟩

/-! ## Claim theorems: app provisioning workflow -/

/-- C6: the subdomain requested in step 3 joins the app name, a dash
and the first dash-separated segment of the directory uid, and is
rooted at the directory path. -/
theorem createAppSubdomain_request_shape (env : CreateEnv)
    (app : AppRecord) (dir : MkdirResp) (h : ¬dir.path = "") :
    (PuterApps.createAppSubdomain env app dir).1 =
      [AppRequest.subdomainCreate
        (app.name ++ "-" ++ firstSegment dir.uid) dir.path] := by
  have hname := append_dash_ne_empty app.name (firstSegment dir.uid)
  simp only [PuterApps.createAppSubdomain, PuterHosting.create]
  rw [if_neg (not_or.mpr ⟨hname, h⟩)]
  split <;> rfl

/-- Witness for C6 at a concrete app and directory response. -/
theorem createAppSubdomain_request_shape_witness :
    (PuterApps.createAppSubdomain
        ⟨"u123", ⟨none, true, none⟩, ⟨"d1-d2", "/alice/AppData/a1"⟩,
          ⟨true, none, none⟩, ⟨true⟩⟩
        ⟨"a1", "test-app", "alice", "", "test-app", ""⟩
        ⟨"d1-d2", "/alice/AppData/a1"⟩).1 =
      [AppRequest.subdomainCreate "test-app-d1" "/alice/AppData/a1"] :=
  (createAppSubdomain_request_shape _ _ _ (by decide)).trans (by rfl)

/-- C1: on the happy path (all four backend responses well-formed and
successful), PuterApps.create issues exactly the four requests
record-create, directory-create, subdomain-create, record-update, in
that order, and resolves with the step-1 app record together with the
directory response and the subdomain result. -/
theorem apps_create_happy_path
    (env : CreateEnv) (options : CreateOptions) (app : AppRecord)
    (sub : SubdomainRecord)
    (hname : ¬options.name = "")
    (herr : env.recordResp.error = none)
    (hsucc : env.recordResp.success = true)
    (hres : env.recordResp.result = some app)
    (howner : ¬app.ownerUsername = "")
    (huid : ¬app.uid = "")
    (hdiruid : ¬env.mkdirResp.uid = "")
    (hdirpath : ¬env.mkdirResp.path = "")
    (hsubsucc : env.subdomainResp.success = true)
    (hsubres : env.subdomainResp.result = some sub)
    (hupd : env.updateResp.success = true) :
    PuterApps.create env options =
      ([.recordCreate options.name (options.url.getD "")
          (options.description.getD ""),
        .mkdir ("/" ++ app.ownerUsername ++ "/AppData/" ++ app.uid)
          ("app-" ++ env.uuid) true false true,
        .subdomainCreate (app.name ++ "-" ++ firstSegment env.mkdirResp.uid)
          env.mkdirResp.path,
        .recordUpdate app.name ("https://" ++ sub.subdomain ++ ".puter.site")
          app.name],
       .ok ⟨app, env.mkdirResp, some sub⟩) := by
  have hsubname := append_dash_ne_empty app.name (firstSegment env.mkdirResp.uid)
  simp [PuterApps.create, PuterApps.createAppRecord,
    PuterApps.createAppDirectory, PuterApps.createAppSubdomain,
    PuterApps.updateAppWithSubdomain, PuterHosting.create, jsTemplateStr,
    hname, herr, hsucc, hres, howner, huid, hdiruid, hdirpath,
    hsubsucc, hsubres, hupd, hsubname]

/-- Witness for C1 at a concrete options object and four successful
mocked responses. -/
theorem apps_create_happy_path_witness :
    PuterApps.create
        ⟨"u123",
         ⟨none, true,
          some ⟨"a1", "test-app", "alice", "https://test.app", "test-app", ""⟩⟩,
         ⟨"d1-d2", "/alice/AppData/a1/app-u123"⟩,
         ⟨true, none, some ⟨"s1", "test-app-d1", "/alice/AppData/a1/app-u123"⟩⟩,
         ⟨true⟩⟩
        ⟨"test-app", some "https://test.app", none⟩ =
      ([.recordCreate "test-app" "https://test.app" "",
        .mkdir "/alice/AppData/a1" "app-u123" true false true,
        .subdomainCreate "test-app-d1" "/alice/AppData/a1/app-u123",
        .recordUpdate "test-app" "https://test-app-d1.puter.site" "test-app"],
       .ok ⟨⟨"a1", "test-app", "alice", "https://test.app", "test-app", ""⟩,
            ⟨"d1-d2", "/alice/AppData/a1/app-u123"⟩,
            some ⟨"s1", "test-app-d1", "/alice/AppData/a1/app-u123"⟩⟩) :=
  (apps_create_happy_path _ _
      ⟨"a1", "test-app", "alice", "https://test.app", "test-app", ""⟩
      ⟨"s1", "test-app-d1", "/alice/AppData/a1/app-u123"⟩
      (by decide) rfl rfl rfl (by decide) (by decide) (by decide) (by decide)
      rfl rfl rfl).trans (by rfl)

/-- C2: when steps 1 and 2 succeed and the subdomain-creation step
responds with success false and the error message "Failed to create
subdomain", PuterApps.create rejects with that message, the step-4
record update is never issued, and no deletion request is issued (no
rollback of the record or directory). -/
theorem apps_create_subdomain_failure
    (env : CreateEnv) (options : CreateOptions) (app : AppRecord)
    (hname : ¬options.name = "")
    (herr : env.recordResp.error = none)
    (hsucc : env.recordResp.success = true)
    (hres : env.recordResp.result = some app)
    (howner : ¬app.ownerUsername = "")
    (huid : ¬app.uid = "")
    (hdiruid : ¬env.mkdirResp.uid = "")
    (hdirpath : ¬env.mkdirResp.path = "")
    (hsubfail : env.subdomainResp.success = false)
    (hsubmsg : env.subdomainResp.error.bind (fun e => e.message) =
      some "Failed to create subdomain") :
    PuterApps.create env options =
      ([.recordCreate options.name (options.url.getD "")
          (options.description.getD ""),
        .mkdir ("/" ++ app.ownerUsername ++ "/AppData/" ++ app.uid)
          ("app-" ++ env.uuid) true false true,
        .subdomainCreate (app.name ++ "-" ++ firstSegment env.mkdirResp.uid)
          env.mkdirResp.path],
       .error (.err "Failed to create subdomain")) ∧
    (∀ r ∈ (PuterApps.create env options).1,
      r.isUpdate = false ∧ r.isDelete = false) := by
  have hsubname := append_dash_ne_empty app.name (firstSegment env.mkdirResp.uid)
  have hmain : PuterApps.create env options =
      ([.recordCreate options.name (options.url.getD "")
          (options.description.getD ""),
        .mkdir ("/" ++ app.ownerUsername ++ "/AppData/" ++ app.uid)
          ("app-" ++ env.uuid) true false true,
        .subdomainCreate (app.name ++ "-" ++ firstSegment env.mkdirResp.uid)
          env.mkdirResp.path],
       .error (.err "Failed to create subdomain")) := by
    simp [PuterApps.create, PuterApps.createAppRecord,
      PuterApps.createAppDirectory, PuterApps.createAppSubdomain,
      PuterApps.createCatch, PuterHosting.create, jsOptOrStr, jsOrStr,
      hname, herr, hsucc, hres, howner, huid, hdiruid, hdirpath,
      hsubfail, hsubmsg, hsubname]
  refine ⟨hmain, ?_⟩
  intro r hr
  rw [hmain] at hr
  simp only [List.mem_cons, List.not_mem_nil, or_false] at hr
  rcases hr with rfl | rfl | rfl <;> exact ⟨rfl, rfl⟩

/-- Witness for C2 at a concrete run whose subdomain step fails. -/
theorem apps_create_subdomain_failure_witness :
    PuterApps.create
        ⟨"u123",
         ⟨none, true,
          some ⟨"a1", "test-app", "alice", "https://test.app", "test-app", ""⟩⟩,
         ⟨"d1-d2", "/alice/AppData/a1/app-u123"⟩,
         ⟨false, some ⟨none, some "Failed to create subdomain"⟩, none⟩,
         ⟨true⟩⟩
        ⟨"test-app", some "https://test.app", none⟩ =
      ([.recordCreate "test-app" "https://test.app" "",
        .mkdir "/alice/AppData/a1" "app-u123" true false true,
        .subdomainCreate "test-app-d1" "/alice/AppData/a1/app-u123"],
       .error (.err "Failed to create subdomain")) :=
  ((apps_create_subdomain_failure
      ⟨"u123",
       ⟨none, true,
        some ⟨"a1", "test-app", "alice", "https://test.app", "test-app", ""⟩⟩,
       ⟨"d1-d2", "/alice/AppData/a1/app-u123"⟩,
       ⟨false, some ⟨none, some "Failed to create subdomain"⟩, none⟩,
       ⟨true⟩⟩
      ⟨"test-app", some "https://test.app", none⟩
      ⟨"a1", "test-app", "alice", "https://test.app", "test-app", ""⟩
      (by decide) rfl rfl rfl (by decide) (by decide) (by decide) (by decide)
      rfl rfl).1).trans (by rfl)

/-! ## Claim theorems: chat normalizer -/

/-- The image phase never posts a request: with no references it has
nothing to do, and with references the collaborator throws before its
/batch call. -/
theorem processImages_fst (ms : List Json) (imgs : List String) :
    (processImages ms imgs).1 = [] := by
  cases imgs with
  | nil => rfl
  | cons a t => rfl

/-- With at least one image reference the image phase rejects with
the TypeError raised inside the upload collaborator. -/
theorem processImages_crash (ms : List Json) (imgs : List String)
    (h : ¬imgs = []) :
    processImages ms imgs =
      ([], .error (.typeError
        "Cannot read properties of undefined (reading type)")) := by
  cases imgs with
  | nil => exact absurd rfl h
  | cons a t => rfl

/-- With no image reference the image phase is a no-op. -/
theorem processImages_no_images (ms : List Json) :
    processImages ms [] = ([], .ok ms) := rfl

/-- The stream key survives the args assembly: the filtered remaining
options cannot override it. -/
theorem jsGet_chatArgs_stream (acc : ChatArgsAcc) (msgs : List Json)
    (hs : isStreamOpt acc.options = true) :
    jsGet (chatArgs acc msgs) "stream" = some (.bool true) := by
  have hrest : ∀ q ∈ acc.options.filter (fun p => ¬p.1 = "stream"),
      ¬q.1 = "stream" := by
    intro q hq
    exact of_decide_eq_true (List.mem_filter.mp hq).2
  unfold chatArgs
  rw [jsGet_mergeObj_of_not_mem _ _ _ hrest, hs]
  rfl

/-- Dispatch-level form of C3: any completion request issued by the
validated tail has the streaming transport exactly when the options
stream flag is strictly true, and a streaming payload has test_mode
false and args.stream true. -/
theorem chatAfterImages_stream_selection (env : ChatEnv)
    (acc : ChatArgsAcc) (ureqs : List ChatRequest) (msgs : List Json)
    (payload : ChatPayload) (b : Bool)
    (hur : ∀ r ∈ ureqs, ∃ ref t, r = ChatRequest.upload ref t)
    (hmem : ChatRequest.complete payload b ∈
      (chatAfterImages env acc ureqs msgs).1) :
    b = isStreamOpt acc.options ∧
    (b = true → payload.test_mode = false ∧
      jsGet payload.args "stream" = some (.bool true)) := by
  have hnc : ChatRequest.complete payload b ∉ ureqs := by
    intro hc
    obtain ⟨ref, t, habs⟩ := hur _ hc
    exact ChatRequest.noConfusion habs
  unfold chatAfterImages at hmem
  by_cases he : msgs.isEmpty
  · rw [if_pos he] at hmem
    exact absurd hmem hnc
  · rw [if_neg he] at hmem
    by_cases hv : msgs.all validMsg
    · rw [if_pos hv] at hmem
      by_cases hs : isStreamOpt acc.options
      · rw [if_pos hs] at hmem
        rcases List.mem_append.mp hmem with hin | hin
        · exact absurd hin hnc
        · have heq := List.mem_singleton.mp hin
          have hpl : payload = chatPayload acc msgs := by
            cases heq
            rfl
          have hb : b = true := by
            cases heq
            rfl
          subst hpl
          subst hb
          refine ⟨hs.symm, fun _ => ⟨?_, ?_⟩⟩
          · simp [chatPayload, hs]
          · exact jsGet_chatArgs_stream acc msgs hs
      · rw [if_neg hs] at hmem
        rcases List.mem_append.mp hmem with hin | hin
        · exact absurd hin hnc
        · have heq := List.mem_singleton.mp hin
          have hb : b = false := by
            cases heq
            rfl
          subst hb
          constructor
          · simp only [Bool.not_eq_true] at hs
            rw [hs]
          · intro hcontra
            exact absurd hcontra (by simp)
    · rw [if_neg hv] at hmem
      exact absurd hmem hnc

/-- C3: for every chat invocation, a completion request is dispatched
on the streaming transport exactly when the normalized options bag
carries stream strictly true, and in that case the payload has
test_mode false (whatever the boolean test-mode positional argument
was) and its args carry stream set to true. -/
theorem chat_stream_selection (env : ChatEnv) (prompt : Json)
    (arg2 arg3 arg4 : Option Json) (payload : ChatPayload) (b : Bool)
    (hmem : ChatRequest.complete payload b ∈
      (PuterAI.chat env prompt arg2 arg3 arg4).1) :
    b = isStreamOpt (normalizeArgs arg2 arg3 arg4).options ∧
    (b = true → payload.test_mode = false ∧
      jsGet payload.args "stream" = some (.bool true)) := by
  unfold PuterAI.chat at hmem
  cases hpm : promptMessages prompt with
  | none =>
    rw [hpm] at hmem
    simp at hmem
  | some ms0 =>
    rw [hpm] at hmem
    have hmem2 : ChatRequest.complete payload b ∈
        (chatRun env (normalizeArgs arg2 arg3 arg4) ms0).1 := hmem
    by_cases hie : (normalizeArgs arg2 arg3 arg4).imageUrls = []
    · have hrun : chatRun env (normalizeArgs arg2 arg3 arg4) ms0 =
          chatAfterImages env (normalizeArgs arg2 arg3 arg4) [] ms0 := by
        unfold chatRun
        rw [hie, processImages_no_images]
      rw [hrun] at hmem2
      exact chatAfterImages_stream_selection env _ _ _ payload b
        (fun r hr => absurd hr (List.not_mem_nil r)) hmem2
    · have hrun : chatRun env (normalizeArgs arg2 arg3 arg4) ms0 =
          ([], .error (.typeError
            "Cannot read properties of undefined (reading type)")) := by
        unfold chatRun
        rw [processImages_crash ms0 _ hie]
      rw [hrun] at hmem2
      simp at hmem2

/-- Witness for C3: a streaming invocation with a boolean test-mode
argument set to true still dispatches with test_mode false and
args.stream true. -/
theorem chat_stream_selection_witness :
    true = isStreamOpt (normalizeArgs
      (some (.obj [("stream", .bool true), ("temperature", .num 1)]))
      (some (.bool true)) none).options ∧
    (true = true →
      (chatPayload (normalizeArgs
        (some (.obj [("stream", .bool true), ("temperature", .num 1)]))
        (some (.bool true)) none)
        [.obj [("role", .str "user"), ("content", .str "hi")]]).test_mode = false ∧
      jsGet (chatPayload (normalizeArgs
        (some (.obj [("stream", .bool true), ("temperature", .num 1)]))
        (some (.bool true)) none)
        [.obj [("role", .str "user"), ("content", .str "hi")]]).args "stream" =
        some (.bool true)) :=
  chat_stream_selection ⟨true, .bool true⟩
    (.arr [.obj [("role", .str "user"), ("content", .str "hi")]])
    (some (.obj [("stream", .bool true), ("temperature", .num 1)]))
    (some (.bool true)) none
    (chatPayload (normalizeArgs
      (some (.obj [("stream", .bool true), ("temperature", .num 1)]))
      (some (.bool true)) none)
      [.obj [("role", .str "user"), ("content", .str "hi")]])
    true (by exact List.Mem.head _)

/-- C7: a bare string prompt with no further arguments issues a single
non-streaming completion request whose args hold exactly the
single-element user message list and whose test_mode is false. -/
theorem chat_string_prompt_request (env : ChatEnv) (p : String) :
    (PuterAI.chat env (.str p) none none none).1 =
      [ChatRequest.complete
        ⟨false, "complete",
         [("messages", .arr [.obj [("role", .str "user"), ("content", .str p)]])]⟩
        false] := by
  rfl

/-- C4: validation failures of PuterAI.chat are synchronous and
local.  The only way the image phase completes is vacuously (no image
references; with references the collaborator throws first), and then
an empty message sequence rejects with the at-least-one-message error,
an invalid message (no string role, or content neither string nor
array) rejects with the invalid-format error, and for every
invocation whatsoever a rejection carrying one of these two
validation messages comes with an empty request trace: no network
call was issued. -/
theorem chat_validation_local (env : ChatEnv) (prompt : Json)
    (arg2 arg3 arg4 : Option Json) (messages0 : List Json)
    (hp : promptMessages prompt = some messages0) :
    ((normalizeArgs arg2 arg3 arg4).imageUrls = [] →
      (messages0.isEmpty = true →
        PuterAI.chat env prompt arg2 arg3 arg4 =
          ([], .error (.err "At least one message is required."))) ∧
      (messages0.isEmpty = false → messages0.all validMsg = false →
        PuterAI.chat env prompt arg2 arg3 arg4 =
          ([], .error (.err "Invalid message format")))) ∧
    (∀ m, (PuterAI.chat env prompt arg2 arg3 arg4).2 = .error (.err m) →
      m = "Invalid message format" ∨
        m = "At least one message is required." →
      (PuterAI.chat env prompt arg2 arg3 arg4).1 = []) := by
  have hchat : PuterAI.chat env prompt arg2 arg3 arg4 =
      chatRun env (normalizeArgs arg2 arg3 arg4) messages0 := by
    unfold PuterAI.chat
    rw [hp]
  by_cases hie : (normalizeArgs arg2 arg3 arg4).imageUrls = []
  · have hc : PuterAI.chat env prompt arg2 arg3 arg4 =
        chatAfterImages env (normalizeArgs arg2 arg3 arg4) [] messages0 := by
      rw [hchat]
      unfold chatRun
      rw [hie, processImages_no_images]
    refine ⟨fun _ => ⟨?_, ?_⟩, ?_⟩
    · intro he
      rw [hc]
      unfold chatAfterImages
      rw [if_pos he]
    · intro he hv
      rw [hc]
      unfold chatAfterImages
      rw [if_neg (by rw [he]; exact Bool.false_ne_true),
        if_neg (by rw [hv]; exact Bool.false_ne_true)]
    · intro m hm hval
      rw [hc] at hm ⊢
      unfold chatAfterImages at hm ⊢
      by_cases he : messages0.isEmpty
      · rw [if_pos he]
      · rw [if_neg he] at hm ⊢
        by_cases hv : messages0.all validMsg
        · rw [if_pos hv] at hm ⊢
          by_cases hs : isStreamOpt (normalizeArgs arg2 arg3 arg4).options
          · rw [if_pos hs] at hm
            exact Except.noConfusion hm
          · rw [if_neg hs] at hm
            by_cases hsucc : env.success
            · rw [if_pos hsucc] at hm
              exact Except.noConfusion hm
            · rw [if_neg hsucc] at hm
              rcases hval with rfl | rfl
              · injection hm with h2
                injection h2 with h3
                exact absurd h3 (by decide)
              · injection hm with h2
                injection h2 with h3
                exact absurd h3 (by decide)
        · rw [if_neg hv]
  · have hcrash : PuterAI.chat env prompt arg2 arg3 arg4 =
        ([], .error (.typeError
          "Cannot read properties of undefined (reading type)")) := by
      rw [hchat]
      unfold chatRun
      rw [processImages_crash messages0 _ hie]
    exact ⟨fun h => absurd h hie, fun m hm hval => by rw [hcrash]⟩

/-- Witness for C4: the empty message array with no further arguments
rejects locally with the at-least-one-message error and an empty
request trace. -/
theorem chat_validation_local_witness :
    PuterAI.chat ⟨true, .bool true⟩ (.arr []) none none none =
      ([], .error (.err "At least one message is required.")) :=
  ((chat_validation_local ⟨true, .bool true⟩ (.arr []) none none none []
      rfl).1 rfl).1 (by rfl)

/-- Amended C5: for every chat invocation carrying at least one image
reference, the call rejects with the TypeError raised inside the
filesystem upload collaborator (chat passes the reference
positionally while every upload implementation in the repository
destructures a file, path, name options object, so the access to the
type property of the undefined file throws), before any network
request is issued, before any content part is built, and without
modifying any message. -/
theorem chat_image_upload_crash (env : ChatEnv) (prompt : Json)
    (arg2 arg3 arg4 : Option Json) (messages0 : List Json)
    (hp : promptMessages prompt = some messages0)
    (himg : ¬(normalizeArgs arg2 arg3 arg4).imageUrls = []) :
    PuterAI.chat env prompt arg2 arg3 arg4 =
      ([], .error (.typeError
        "Cannot read properties of undefined (reading type)")) := by
  have hchat : PuterAI.chat env prompt arg2 arg3 arg4 =
      chatRun env (normalizeArgs arg2 arg3 arg4) messages0 := by
    unfold PuterAI.chat
    rw [hp]
  rw [hchat]
  unfold chatRun
  rw [processImages_crash messages0 _ himg]

/-- Witness for C5 (amended): a string prompt with an array of two
image references rejects with the TypeError and an empty request
trace. -/
theorem chat_image_upload_crash_witness :
    PuterAI.chat ⟨true, .bool true⟩ (.str "describe these")
        (some (.arr [.str "a.png", .str "b.png"])) none none =
      ([], .error (.typeError
        "Cannot read properties of undefined (reading type)")) :=
  chat_image_upload_crash ⟨true, .bool true⟩ (.str "describe these")
    (some (.arr [.str "a.png", .str "b.png"])) none none
    [.obj [("role", .str "user"), ("content", .str "describe these")]]
    rfl (by decide)

/-- Counterexample to C5 as stated: at a concrete invocation with one
image reference, chat rejects with the TypeError from the upload
collaborator and its request trace is empty, so the reference is not
uploaded and no content part of any shape is built or appended. -/
theorem chat_image_upload_crash_cex :
    PuterAI.chat ⟨true, .bool true⟩
        (.arr [.obj [("role", .str "user"), ("content", .str "hi")]])
        (some (.str "img.png")) none none =
      ([], .error (.typeError
        "Cannot read properties of undefined (reading type)")) ∧
    ∀ r ∈ (PuterAI.chat ⟨true, .bool true⟩
        (.arr [.obj [("role", .str "user"), ("content", .str "hi")]])
        (some (.str "img.png")) none none).1, False :=
  ⟨by rfl, fun r hr => absurd hr (List.not_mem_nil r)⟩
